import Mathlib

set_option maxRecDepth 100000

/-!
Verification of the LegalDoc_AI Streamlit RAG application (`src/LegalDoc_AI.py`)
against its natural-language specification.

The application is a single-file retrieval-augmented chat front end.  This file
gives a shallow embedding of its data model and per-turn control flow:

* `Doc` models a langchain `Document` (page content plus the `source`/`page`
  metadata entries the formatter reads, each possibly absent);
* `get_vectorstore` models the session-cached vector-store accessor
  (lines 16-21 of the source), instrumented with a flag telling whether
  `FAISS.load_local` was actually invoked;
* `CUSTOM_PROMPT_TEMPLATE` is the literal prompt template from lines 49-62,
  and `renderPrompt` is langchain `PromptTemplate` formatting: literal
  substitution of the two named slots;
* `formattedResponse` models the response-formatting loop of lines 86-89;
* `processTurn` models one body of `main` after `st.chat_input`
  (lines 43-95): the falsy-input guard, recording of the user message,
  the vector-store `None` check, the `RetrievalQA` invocation (retrieve the
  top k=3 chunks, stuff the context, generate) and the broad `except`
  handler.  External collaborators (the FAISS search and the HuggingFace
  endpoint) are oracle parameters returning `Except`; a raised exception is
  modelled as `.error msg` where `msg` is Python's `str(e)`.  The effect
  trace records everything the turn shows on the interactive surface and
  every external call it makes, in program order.
-/

/-- Models a retrieved langchain `Document`: the passage text plus the two
metadata entries the formatter reads (`metadata.get('source', 'Unknown')`
and `metadata.get('page', 'N/A')`); `none` models an absent metadata key. -/
structure Doc where
  page_content : String
  source : Option String
  page : Option String
deriving DecidableEq, Repr

/-- Python `str.strip()` applied to the chunk text on line 89: remove leading
and trailing whitespace characters. -/
def pyStrip (s : String) : String :=
  ⟨((s.data.dropWhile Char.isWhitespace).reverse.dropWhile Char.isWhitespace).reverse⟩

/-- A role tag of a Streamlit chat message. -/
inductive Role
  | user
  | assistant
deriving DecidableEq, Repr

/-- One entry of `st.session_state.messages`. -/
structure Message where
  role : Role
  content : String
deriving DecidableEq, Repr

/-- Everything a turn shows on the interactive surface or asks of an external
collaborator, in program order: `renderUser` is line 46, `retrievalCall` and
`generationCall` are the two external calls made inside `qa_chain.invoke`
(line 81), `renderAssistant` is line 91, `errorDisplay` is `st.error`
(lines 70 and 95). -/
inductive Effect
  | renderUser (s : String)
  | retrievalCall (q : String)
  | generationCall (prompt : String)
  | renderAssistant (s : String)
  | errorDisplay (s : String)
deriving DecidableEq, Repr

/-- The literal `CUSTOM_PROMPT_TEMPLATE` of lines 49-62 (a Python
triple-quoted string: it opens with a newline and every line carries the
source's 8-space indentation). -/
def CUSTOM_PROMPT_TEMPLATE : String :=
  "\n        Use the pieces of information provided in the context to answer the user's question.\n        If you do not find relevant legal provisions, say: \"Currently, AI itself cannot be held legally responsible under IPC. However, the entity using or deploying AI may be liable under the IT Act, 2000, or other laws.\"\n        If you don't know the answer, just say that you don't know. Don't make up an answer.\n        Provide IPC sections under which offence is given.\n        Do not make up laws or legal provisions.\n        Solutions to problems must be legally oriented, and specified.\n        Don't provide anything outside the given context.\n        \n        Context: {context}\n        Question: {question}\n        \n        Start the answer directly. No small talk, please.\n        "

/-- The template text strictly before the `context` slot. -/
def promptPre : String :=
  "\n        Use the pieces of information provided in the context to answer the user's question.\n        If you do not find relevant legal provisions, say: \"Currently, AI itself cannot be held legally responsible under IPC. However, the entity using or deploying AI may be liable under the IT Act, 2000, or other laws.\"\n        If you don't know the answer, just say that you don't know. Don't make up an answer.\n        Provide IPC sections under which offence is given.\n        Do not make up laws or legal provisions.\n        Solutions to problems must be legally oriented, and specified.\n        Don't provide anything outside the given context.\n        \n        Context: "

/-- The template text strictly between the `context` slot and the
`question` slot. -/
def promptMid : String := "\n        Question: "

/-- The template text strictly after the `question` slot. -/
def promptSuf : String :=
  "\n        \n        Start the answer directly. No small talk, please.\n        "

/-- The one specific fallback sentence the template instructs the model to
emit when no relevant legal provision is found (inside the quotes on
line 51). -/
def fallbackSentence : String :=
  "Currently, AI itself cannot be held legally responsible under IPC. However, the entity using or deploying AI may be liable under the IT Act, 2000, or other laws."

/-- langchain `PromptTemplate` rendering (`set_custom_prompt`, lines 24-25,
applied by the chain): literal substitution of the two named slot values
into the fixed template string — each slot is replaced by its value and the
surrounding template text is kept verbatim. -/
def renderPrompt (context question : String) : String :=
  promptPre ++ context ++ promptMid ++ question ++ promptSuf

/-- `get_vectorstore` (lines 16-21): if the `"vectorstore"` key is absent
from `st.session_state`, call `FAISS.load_local` and store the result under
that key; return the stored value.  `loadLocal` is the outcome
`FAISS.load_local` would have (`.error e` models a raised exception);
`cache` is the session slot (`none` = key absent; the inner `Option VS` is
the stored Python value, which could in principle be `None`).  The result
carries the returned value, the new session slot, and whether
`FAISS.load_local` was actually invoked. -/
def get_vectorstore {VS : Type} (loadLocal : Except String (Option VS))
    (cache : Option (Option VS)) :
    Except String (Option VS × Option (Option VS) × Bool) :=
  match cache with
  | some v => .ok (v, some v, false)
  | none =>
    match loadLocal with
    | .ok v => .ok (v, some v, true)
    | .error e => .error e

/-- The external collaborators of one turn.  `loadLocal` is the outcome of
`FAISS.load_local` (line 20).  `search vs q` is the similarity search of the
loaded store: on success it yields the store's full candidate list ordered
by descending similarity (rank order); the retriever built on line 76 keeps
the first `k` of it.  `generate token prompt` is the HuggingFace endpoint
call made by the chain with the `load_llm` configuration (lines 27-32),
which carries the token read from the environment. -/
structure Oracles (VS : Type) where
  loadLocal : Except String (Option VS)
  search : VS → String → Except String (List Doc)
  generate : Option String → String → Except String String

/-- The retriever built by `vectorstore.as_retriever(search_kwargs={'k': 3})`
on line 76: the `k` most similar chunks, i.e. the first `k` entries of the
store's similarity-ranked candidate list. -/
def retrieveDocs {VS : Type} (search : VS → String → Except String (List Doc))
    (k : Nat) (vs : VS) (q : String) : Except String (List Doc) :=
  (search vs q).map fun ranked => ranked.take k

/-- The `"stuff"` chain's document combination (line 75): the retrieved
chunk texts joined by blank lines become the `context` slot value. -/
def stuffContext (docs : List Doc) : String :=
  String.intercalate "\n\n" (docs.map fun d => d.page_content)

/-- `os.getenv("HF_TOKEN")` (line 65): a total environment lookup — it
returns `none` when the variable is absent and never raises. -/
def getHFToken (env : String → Option String) : Option String :=
  env "HF_TOKEN"

/-- The citation line appended for the chunk of 1-based rank `rank` on
line 88: `**{rank}. Source:** X, **Page:** Y` with the `'Unknown'` /
`'N/A'` defaults of `metadata.get`. -/
def citationLine (rank : Nat) (doc : Doc) : String :=
  "**" ++ toString rank ++ ". Source:** `" ++ doc.source.getD "Unknown" ++
    "`, **Page:** " ++ doc.page.getD "N/A" ++ "\n\n"

/-- One full citation entry: the citation line of line 88 followed by the
stripped chunk text appended on line 89. -/
def formatEntry (rank : Nat) (doc : Doc) : String :=
  citationLine rank doc ++ pyStrip doc.page_content ++ "\n\n"

/-- The `for i, doc in enumerate(source_documents, start=1)` loop of
lines 87-89: successively append each entry to the accumulated response
text, ranks counting up from `n`. -/
def appendEntries (acc : String) (docs : List Doc) (n : Nat) : String :=
  match docs with
  | [] => acc
  | d :: rest => appendEntries (acc ++ formatEntry n d) rest (n + 1)

/-- The citation list as a list of entries: the chunks in retrieval order,
paired with their 1-based ranks by `enumerate(source_documents, start=1)`. -/
def citationEntries (docs : List Doc) : List String :=
  (docs.enumFrom 1).map fun p => formatEntry p.1 p.2

/-- The fixed text of line 86 preceding the citation loop: the response
header around the generated answer, ending with the labeled source section
heading. -/
def responseHeader (result : String) : String :=
  "### LegalDoc_AI Response\n\n" ++ result ++ "\n\n---\n\n### 📚 Source Documents:\n"

/-- The full formatted response of lines 86-89: the header built from the
generated answer, then the citation entries appended in retrieval order. -/
def formattedResponse (result : String) (docs : List Doc) : String :=
  appendEntries (responseHeader result) docs 1

/-- The per-session state the turn reads and writes: the
`st.session_state.messages` list and the `st.session_state.vectorstore`
slot (`none` = key absent). -/
structure SessionState (VS : Type) where
  messages : List Message
  vectorstore : Option (Option VS)

/-- How the `try` block of lines 67-92 ends: an exception reaching the
`except` handler (`raised`, carrying Python's `str(e)`), the explicit
`return` of the `None` check on lines 69-71 (`storeNone`), or a generated
answer with its source chunks (`answered`).  Each outcome carries the
resulting `st.session_state.vectorstore` slot. -/
inductive TryOutcome (VS : Type)
  | raised (e : String) (cache : Option (Option VS))
  | storeNone (cache : Option (Option VS))
  | answered (result : String) (docs : List Doc) (cache : Option (Option VS))

/-- The `try` block of lines 67-92 up to (and excluding) response
formatting: acquire the vector store, run the `None` check, retrieve the
top 3 chunks, render the prompt and generate.  Also returns the external
calls the block performed, in order. -/
def runTry {VS : Type} (o : Oracles VS) (token : Option String)
    (cache : Option (Option VS)) (input : String) : TryOutcome VS × List Effect :=
  match get_vectorstore o.loadLocal cache with
  | .error e => (.raised e cache, [])
  | .ok (vsOpt, cache2, _) =>
    match vsOpt with
    | none => (.storeNone cache2, [])
    | some vs =>
      match retrieveDocs o.search 3 vs input with
      | .error e => (.raised e cache2, [Effect.retrievalCall input])
      | .ok docs =>
        let prompt := renderPrompt (stuffContext docs) input
        match o.generate token prompt with
        | .error e =>
          (.raised e cache2, [Effect.retrievalCall input, Effect.generationCall prompt])
        | .ok result =>
          (.answered result docs cache2,
           [Effect.retrievalCall input, Effect.generationCall prompt])

/-- One execution of the body of `main` after `st.chat_input`
(lines 43-95), given the external collaborators `o` and the process
environment `env`.  A falsy (empty) input triggers nothing.  Otherwise the
user message is rendered and recorded (lines 46-47) and the `try` block
runs; a raised exception falls to the `except` handler (lines 94-95),
which shows `st.error(f"Error: {str(e)}")`; an answer is formatted,
rendered and recorded (lines 86-92).  Returns the new session state and
the effect trace. -/
def processTurn {VS : Type} (o : Oracles VS) (env : String → Option String)
    (s : SessionState VS) (input : String) : SessionState VS × List Effect :=
  if input = "" then (s, [])
  else
    let msgs1 := s.messages ++ [{ role := Role.user, content := input }]
    match runTry o (getHFToken env) s.vectorstore input with
    | (.raised e cache, calls) =>
      (⟨msgs1, cache⟩,
       Effect.renderUser input :: calls ++ [Effect.errorDisplay ("Error: " ++ e)])
    | (.storeNone cache, calls) =>
      (⟨msgs1, cache⟩,
       Effect.renderUser input ::
         calls ++ [Effect.errorDisplay "Failed to load the vector store."])
    | (.answered result docs cache, calls) =>
      let formatted := formattedResponse result docs
      (⟨msgs1 ++ [{ role := Role.assistant, content := formatted }], cache⟩,
       Effect.renderUser input :: calls ++ [Effect.renderAssistant formatted])

/-- The texts shown through `st.error` in a trace. -/
def errorDisplays (effs : List Effect) : List String :=
  effs.filterMap fun e =>
    match e with
    | Effect.errorDisplay s => some s
    | _ => none

/-- The texts rendered as assistant chat messages in a trace. -/
def assistantRenders (effs : List Effect) : List String :=
  effs.filterMap fun e =>
    match e with
    | Effect.renderAssistant s => some s
    | _ => none

/-- The message of the exception the `try` block of a non-empty turn would
raise (`none` when no exception is raised; the explicit `None` branch of
lines 69-71 is a `return`, not an exception). -/
def turnException {VS : Type} (o : Oracles VS) (cache : Option (Option VS))
    (token : Option String) (input : String) : Option String :=
  match (runTry o token cache input).1 with
  | .raised e _ => some e
  | _ => none

/-! ### Helper lemmas -/

theorem data_infix_of_parts (x pre suf whole : String) (h : whole = pre ++ x ++ suf) :
    x.data <:+: whole.data := by
  subst h
  simp only [String.data_append]
  exact List.infix_append _ _ _

theorem data_infix_append_left (x a b : String) (h : x.data <:+: a.data) :
    x.data <:+: (a ++ b).data := by
  rw [String.data_append]
  obtain ⟨s, t, hst⟩ := h
  exact ⟨s, t ++ b.data, by rw [← hst]; simp [List.append_assoc]⟩

theorem data_infix_append_right (x a b : String) (h : x.data <:+: b.data) :
    x.data <:+: (a ++ b).data := by
  rw [String.data_append]
  obtain ⟨s, t, hst⟩ := h
  exact ⟨a.data ++ s, t, by rw [← hst]; simp [List.append_assoc]⟩

theorem data_infix_self (x : String) : x.data <:+: x.data :=
  ⟨[], [], by simp⟩

theorem runTry_calls_clean {VS : Type} (o : Oracles VS) (token : Option String)
    (cache : Option (Option VS)) (input : String) :
    errorDisplays (runTry o token cache input).2 = []
    ∧ assistantRenders (runTry o token cache input).2 = [] := by
  cases hgv : get_vectorstore o.loadLocal cache with
  | error e => simp [runTry, hgv, errorDisplays, assistantRenders]
  | ok triple =>
    obtain ⟨vsOpt, cache2, b⟩ := triple
    cases vsOpt with
    | none => simp [runTry, hgv, errorDisplays, assistantRenders]
    | some vs =>
      cases hr : retrieveDocs o.search 3 vs input with
      | error e => simp [runTry, hgv, hr, errorDisplays, assistantRenders]
      | ok docs =>
        cases hg : o.generate token (renderPrompt (stuffContext docs) input) with
        | error e => simp [runTry, hgv, hr, hg, errorDisplays, assistantRenders]
        | ok result => simp [runTry, hgv, hr, hg, errorDisplays, assistantRenders]

theorem processTurn_raised {VS : Type} (o : Oracles VS) (env : String → Option String)
    (s : SessionState VS) (input e : String) (hne : input ≠ "")
    (hexc : turnException o s.vectorstore (getHFToken env) input = some e) :
    (processTurn o env s input).1.messages
        = s.messages ++ [{ role := Role.user, content := input }]
    ∧ errorDisplays (processTurn o env s input).2 = ["Error: " ++ e]
    ∧ assistantRenders (processTurn o env s input).2 = [] := by
  unfold turnException at hexc
  unfold processTurn
  rw [if_neg hne]
  have hclean := runTry_calls_clean o (getHFToken env) s.vectorstore input
  cases hrt : runTry o (getHFToken env) s.vectorstore input with
  | mk outcome calls =>
    rw [hrt] at hexc hclean
    cases outcome with
    | raised e2 cache =>
      simp only [Option.some.injEq] at hexc
      subst hexc
      obtain ⟨hc1, hc2⟩ := hclean
      refine ⟨rfl, ?_, ?_⟩
      · simp only [errorDisplays] at hc1 ⊢
        simp [List.filterMap_cons, List.filterMap_append, hc1]
      · simp only [assistantRenders] at hc2 ⊢
        simp [List.filterMap_cons, List.filterMap_append, hc2]
    | storeNone cache => simp at hexc
    | answered result docs cache => simp at hexc

theorem processTurn_answered {VS : Type} (o : Oracles VS) (env : String → Option String)
    (s : SessionState VS) (input result : String) (vs : VS)
    (cache2 : Option (Option VS)) (b : Bool) (ranked : List Doc)
    (hne : input ≠ "")
    (hgv : get_vectorstore o.loadLocal s.vectorstore = Except.ok (some vs, cache2, b))
    (hs : o.search vs input = Except.ok ranked)
    (hgen : o.generate (getHFToken env)
        (renderPrompt (stuffContext (ranked.take 3)) input) = Except.ok result) :
    processTurn o env s input =
      (⟨s.messages ++ [{ role := Role.user, content := input }]
          ++ [{ role := Role.assistant,
                content := formattedResponse result (ranked.take 3) }], cache2⟩,
       [Effect.renderUser input, Effect.retrievalCall input,
        Effect.generationCall (renderPrompt (stuffContext (ranked.take 3)) input),
        Effect.renderAssistant (formattedResponse result (ranked.take 3))]) := by
  have hrt : runTry o (getHFToken env) s.vectorstore input
      = (.answered result (ranked.take 3) cache2,
         [Effect.retrievalCall input,
          Effect.generationCall (renderPrompt (stuffContext (ranked.take 3)) input)]) := by
    simp [runTry, hgv, retrieveDocs, hs, hgen, Except.map]
  simp [processTurn, if_neg hne, hrt]

theorem processTurn_genError {VS : Type} (o : Oracles VS) (env : String → Option String)
    (s : SessionState VS) (input e : String) (vs : VS)
    (cache2 : Option (Option VS)) (b : Bool) (ranked : List Doc)
    (hne : input ≠ "")
    (hgv : get_vectorstore o.loadLocal s.vectorstore = Except.ok (some vs, cache2, b))
    (hs : o.search vs input = Except.ok ranked)
    (hgen : o.generate (getHFToken env)
        (renderPrompt (stuffContext (ranked.take 3)) input) = Except.error e) :
    processTurn o env s input =
      (⟨s.messages ++ [{ role := Role.user, content := input }], cache2⟩,
       [Effect.renderUser input, Effect.retrievalCall input,
        Effect.generationCall (renderPrompt (stuffContext (ranked.take 3)) input),
        Effect.errorDisplay ("Error: " ++ e)]) := by
  have hrt : runTry o (getHFToken env) s.vectorstore input
      = (.raised e cache2,
         [Effect.retrievalCall input,
          Effect.generationCall (renderPrompt (stuffContext (ranked.take 3)) input)]) := by
    simp [runTry, hgv, retrieveDocs, hs, hgen, Except.map]
  simp [processTurn, if_neg hne, hrt]

theorem citationEntries_length (docs : List Doc) :
    (citationEntries docs).length = docs.length := by
  simp [citationEntries]

theorem citationEntries_get (docs : List Doc) (i : Nat)
    (h : i < (citationEntries docs).length) (h2 : i < docs.length) :
    (citationEntries docs).get ⟨i, h⟩ = formatEntry (1 + i) (docs.get ⟨i, h2⟩) := by
  simp [citationEntries, List.get_eq_getElem, List.getElem_map, List.getElem_enumFrom]

theorem appendEntries_eq (docs : List Doc) : ∀ (acc : String) (n : Nat),
    appendEntries acc docs n
      = acc ++ ((docs.enumFrom n).map fun p => formatEntry p.1 p.2).foldr
          (fun a b => a ++ b) "" := by
  induction docs with
  | nil => intro acc n; simp [appendEntries, String.append_empty]
  | cons d rest ih =>
    intro acc n
    simp [appendEntries, List.enumFrom, ih, String.append_assoc]

theorem formattedResponse_eq (result : String) (docs : List Doc) :
    formattedResponse result docs
      = responseHeader result
          ++ (citationEntries docs).foldr (fun a b => a ++ b) "" := by
  simp [formattedResponse, citationEntries, appendEntries_eq]

/-! ### Witness fixtures -/

/-- A concrete chunk used by the witnesses: full metadata present. -/
def wDoc1 : Doc := ⟨"  Section 378 defines theft.  ", some "ipc.pdf", some "45"⟩

/-- A concrete chunk used by the witnesses: full metadata present. -/
def wDoc2 : Doc := ⟨"Section 379 gives the punishment.", some "ipc.pdf", some "46"⟩

/-- A concrete chunk used by the witnesses: `page` metadata absent. -/
def wDoc3 : Doc := ⟨"\nSection 380: theft in dwelling.\n", some "ipc_volume2.pdf", none⟩

/-- Concrete collaborators for a fully successful turn (the store holds four
ranked candidates). -/
def wOraclesOk : Oracles Nat :=
  ⟨Except.ok (some 0), fun _ _ => Except.ok [wDoc1, wDoc2, wDoc3, wDoc1],
   fun _ _ => Except.ok "Theft is punishable under Section 379 IPC."⟩

/-- Concrete collaborators whose generation endpoint fails. -/
def wOraclesGenFail : Oracles Nat :=
  ⟨Except.ok (some 0), fun _ _ => Except.ok [wDoc1],
   fun _ _ => Except.error "401 Client Error: Unauthorized for url"⟩

/-- A concrete empty process environment. -/
def wEnv : String → Option String := fun _ => none

/-- A concrete fresh session: no messages, vector store not yet cached. -/
def wState : SessionState Nat := ⟨[], none⟩

/-! ### Claims -/

/-- C8: for every empty (falsy) user input string no turn is triggered:
retrieval and generation are not invoked, no message is appended to the
Conversation State, no error is displayed — the state is unchanged and the
effect trace is empty. -/
theorem empty_input_triggers_nothing {VS : Type} (o : Oracles VS)
    (env : String → Option String) (s : SessionState VS) :
    processTurn o env s "" = (s, []) := by
  simp [processTurn]

/-- C7: the vector store handle is initialized at most once: with the
session slot empty, a successful `FAISS.load_local` outcome `v` is loaded
(the flag is `true`) and cached; any later call with the slot filled
returns the existing instance `v` with `FAISS.load_local` not invoked (the
flag is `false`), whatever its outcome would now be. -/
theorem get_vectorstore_initialized_once {VS : Type}
    (load load2 : Except String (Option VS)) (v : Option VS)
    (h : load = Except.ok v) :
    get_vectorstore load none = Except.ok (v, some v, true)
    ∧ get_vectorstore load2 (some v) = Except.ok (v, some v, false) := by
  subst h
  exact ⟨rfl, rfl⟩

/-- Witness for C7 at a concrete handle. -/
theorem get_vectorstore_initialized_once_witness :
    (Except.ok (some 7) : Except String (Option Nat)) = Except.ok (some 7)
    ∧ (get_vectorstore (Except.ok (some 7) : Except String (Option Nat)) none
          = Except.ok (some 7, some (some 7), true)
      ∧ get_vectorstore (Except.error "index missing" : Except String (Option Nat))
            (some (some 7))
          = Except.ok (some 7, some (some 7), false)) :=
  ⟨rfl, get_vectorstore_initialized_once _ (Except.error "index missing") (some 7) rfl⟩

/-- C9 (counterexample): a chunk whose metadata lacks a page number is
formatted with the string `N/A` in the page position, and the string
`unknown` does not occur in its citation entry — the claim's `"unknown"`
is wrong on the code. -/
theorem missing_page_counterexample :
    (Doc.mk "  Section 379 text.  " (some "ipc.pdf") none).page = none
    ∧ formatEntry 1 (Doc.mk "  Section 379 text.  " (some "ipc.pdf") none)
        = "**1. Source:** `ipc.pdf`, **Page:** N/A\n\nSection 379 text.\n\n"
    ∧ ¬ ("unknown".data <:+:
          (formatEntry 1 (Doc.mk "  Section 379 text.  " (some "ipc.pdf") none)).data) := by
  refine ⟨rfl, by decide, by decide⟩

/-- C9 (amended): for every retrieved chunk whose metadata lacks a page
number, the page field — and hence the citation entry — shows the string
`N/A` in place of the page number, followed by the chunk's
whitespace-stripped text. -/
theorem missing_page_shows_NA (rank : Nat) (d : Doc) (h : d.page = none) :
    d.page.getD "N/A" = "N/A"
    ∧ citationLine rank d
        = "**" ++ toString rank ++ ". Source:** `" ++ d.source.getD "Unknown"
            ++ "`, **Page:** " ++ "N/A" ++ "\n\n"
    ∧ formatEntry rank d
        = citationLine rank d ++ pyStrip d.page_content ++ "\n\n" := by
  refine ⟨by simp [h], by simp [citationLine, h], rfl⟩

/-- Witness for the amended C9 at a concrete chunk. -/
theorem missing_page_shows_NA_witness :
    (Doc.mk " Section 380. " (some "ipc.pdf") none).page = none
    ∧ ((Doc.mk " Section 380. " (some "ipc.pdf") none).page.getD "N/A" = "N/A"
      ∧ citationLine 2 (Doc.mk " Section 380. " (some "ipc.pdf") none)
          = "**" ++ toString 2 ++ ". Source:** `"
              ++ (Doc.mk " Section 380. " (some "ipc.pdf") none).source.getD "Unknown"
              ++ "`, **Page:** " ++ "N/A" ++ "\n\n"
      ∧ formatEntry 2 (Doc.mk " Section 380. " (some "ipc.pdf") none)
          = citationLine 2 (Doc.mk " Section 380. " (some "ipc.pdf") none)
              ++ pyStrip (Doc.mk " Section 380. " (some "ipc.pdf") none).page_content
              ++ "\n\n") :=
  ⟨rfl, missing_page_shows_NA 2 (Doc.mk " Section 380. " (some "ipc.pdf") none) rfl⟩

/-- C1: a turn in which the `try` block raises (retrieval or generation
fails) leaves the Conversation State equal to the state before the turn
plus exactly the already-recorded user message; exactly one error display
is produced, no assistant message is rendered, and the set of assistant
messages in the state is unchanged. -/
theorem failed_turn_leaves_state {VS : Type} (o : Oracles VS)
    (env : String → Option String) (s : SessionState VS) (input e : String)
    (hne : input ≠ "")
    (hexc : turnException o s.vectorstore (getHFToken env) input = some e) :
    (processTurn o env s input).1.messages
        = s.messages ++ [{ role := Role.user, content := input }]
    ∧ (errorDisplays (processTurn o env s input).2).length = 1
    ∧ assistantRenders (processTurn o env s input).2 = []
    ∧ (processTurn o env s input).1.messages.filter
          (fun m => decide (m.role = Role.assistant))
        = s.messages.filter (fun m => decide (m.role = Role.assistant)) := by
  obtain ⟨h1, h2, h3⟩ := processTurn_raised o env s input e hne hexc
  refine ⟨h1, by rw [h2]; rfl, h3, by rw [h1]; simp [List.filter_append]⟩

/-- Witness for C1: a concrete turn whose generation call fails. -/
theorem failed_turn_leaves_state_witness :
    ("What is theft?" ≠ ""
      ∧ turnException wOraclesGenFail wState.vectorstore (getHFToken wEnv)
          "What is theft?" = some "401 Client Error: Unauthorized for url")
    ∧ ((processTurn wOraclesGenFail wEnv wState "What is theft?").1.messages
          = wState.messages ++ [{ role := Role.user, content := "What is theft?" }]
      ∧ (errorDisplays (processTurn wOraclesGenFail wEnv wState "What is theft?").2).length = 1
      ∧ assistantRenders (processTurn wOraclesGenFail wEnv wState "What is theft?").2 = []
      ∧ (processTurn wOraclesGenFail wEnv wState "What is theft?").1.messages.filter
            (fun m => decide (m.role = Role.assistant))
          = wState.messages.filter (fun m => decide (m.role = Role.assistant))) :=
  ⟨⟨by decide, rfl⟩,
   failed_turn_leaves_state wOraclesGenFail wEnv wState "What is theft?"
     "401 Client Error: Unauthorized for url" (by decide) rfl⟩

/-- C4 (amended): every exception raised during a non-empty turn is caught
at the orchestrator boundary and converted to a single user-visible error
display whose text is exactly `Error: ` followed by the exception's own
message — so the exception's message text is included in the display (no
stack information beyond it), and no assistant message is rendered. -/
theorem failure_single_error_display {VS : Type} (o : Oracles VS)
    (env : String → Option String) (s : SessionState VS) (input e : String)
    (hne : input ≠ "")
    (hexc : turnException o s.vectorstore (getHFToken env) input = some e) :
    errorDisplays (processTurn o env s input).2 = ["Error: " ++ e]
    ∧ assistantRenders (processTurn o env s input).2 = [] :=
  (processTurn_raised o env s input e hne hexc).2

/-- Witness for the amended C4 at a concrete failing turn. -/
theorem failure_single_error_display_witness :
    ("What is theft?" ≠ ""
      ∧ turnException wOraclesGenFail wState.vectorstore (getHFToken wEnv)
          "What is theft?" = some "401 Client Error: Unauthorized for url")
    ∧ (errorDisplays (processTurn wOraclesGenFail wEnv wState "What is theft?").2
          = ["Error: " ++ "401 Client Error: Unauthorized for url"]
      ∧ assistantRenders (processTurn wOraclesGenFail wEnv wState "What is theft?").2 = []) :=
  ⟨⟨by decide, rfl⟩,
   failure_single_error_display wOraclesGenFail wEnv wState "What is theft?"
     "401 Client Error: Unauthorized for url" (by decide) rfl⟩

/-- C4 (counterexample): the single error display of a concrete failing
turn contains the raised exception's own message text verbatim — raw
internal error detail does reach the interactive surface, contradicting
the claim that none is exposed. -/
theorem error_detail_exposed_counterexample :
    errorDisplays (processTurn wOraclesGenFail wEnv wState "What is theft?").2
        = ["Error: 401 Client Error: Unauthorized for url"]
    ∧ "401 Client Error: Unauthorized for url".data
        <:+: "Error: 401 Client Error: Unauthorized for url".data := by
  refine ⟨rfl, by decide⟩

/-- C5: the prompt template is a fixed string with exactly two named
substitution slots — it splits as fixed text around `{context}` and
`{question}`, and contains exactly two opening and two closing braces —
the policy fallback sentence occurs verbatim in the template, rendering is
literal substitution of the two slot values into this fixed string, and
every rendered prompt contains the fallback sentence verbatim. -/
theorem prompt_template_two_slots :
    CUSTOM_PROMPT_TEMPLATE
        = promptPre ++ "{context}" ++ promptMid ++ "{question}" ++ promptSuf
    ∧ CUSTOM_PROMPT_TEMPLATE.data.count '\x7b' = 2
    ∧ CUSTOM_PROMPT_TEMPLATE.data.count '\x7d' = 2
    ∧ fallbackSentence.data <:+: CUSTOM_PROMPT_TEMPLATE.data
    ∧ (∀ context question, renderPrompt context question
          = promptPre ++ context ++ promptMid ++ question ++ promptSuf)
    ∧ (∀ context question,
          fallbackSentence.data <:+: (renderPrompt context question).data) := by
  have h1 : fallbackSentence.data <:+: promptPre.data := by decide
  refine ⟨rfl, by decide, by decide, ?_, fun _ _ => rfl, ?_⟩
  · have heq : CUSTOM_PROMPT_TEMPLATE
        = promptPre ++ "{context}" ++ promptMid ++ "{question}" ++ promptSuf := rfl
    rw [heq]
    exact data_infix_append_left _ _ _ (data_infix_append_left _ _ _
      (data_infix_append_left _ _ _ (data_infix_append_left _ _ _ h1)))
  · intro context question
    exact data_infix_append_left _ _ _ (data_infix_append_left _ _ _
      (data_infix_append_left _ _ _ (data_infix_append_left _ _ _ h1)))

/-- C2: on a successful turn the retriever keeps at most k=3 chunks — the
first entries, in order, of the store's similarity-ranked candidate list —
and the citation list in the formatted output lists exactly these chunks in
retrieval order with 1-based consecutive ranks: entry `i` (0-based) is the
entry of rank `1 + i` for retrieved chunk `i`. -/
theorem retrieval_k3_citation_rank_order {VS : Type} (o : Oracles VS)
    (env : String → Option String) (s : SessionState VS)
    (input result : String) (vs : VS) (cache2 : Option (Option VS)) (b : Bool)
    (ranked : List Doc)
    (hne : input ≠ "")
    (hgv : get_vectorstore o.loadLocal s.vectorstore = Except.ok (some vs, cache2, b))
    (hs : o.search vs input = Except.ok ranked)
    (hgen : o.generate (getHFToken env)
        (renderPrompt (stuffContext (ranked.take 3)) input) = Except.ok result) :
    retrieveDocs o.search 3 vs input = Except.ok (ranked.take 3)
    ∧ (ranked.take 3).length ≤ 3
    ∧ ranked.take 3 <+: ranked
    ∧ assistantRenders (processTurn o env s input).2
        = [formattedResponse result (ranked.take 3)]
    ∧ formattedResponse result (ranked.take 3)
        = responseHeader result
            ++ (citationEntries (ranked.take 3)).foldr (fun a b => a ++ b) ""
    ∧ (citationEntries (ranked.take 3)).length = (ranked.take 3).length
    ∧ ∀ (i : Nat) (h2 : i < (citationEntries (ranked.take 3)).length)
        (h : i < (ranked.take 3).length),
        (citationEntries (ranked.take 3)).get ⟨i, h2⟩
          = formatEntry (1 + i) ((ranked.take 3).get ⟨i, h⟩) := by
  refine ⟨by simp [retrieveDocs, hs, Except.map], ?_, List.take_prefix 3 ranked, ?_,
    formattedResponse_eq result (ranked.take 3), citationEntries_length _,
    fun i h2 h => citationEntries_get _ i h2 h⟩
  · rw [List.length_take]
    exact min_le_left _ _
  · rw [processTurn_answered o env s input result vs cache2 b ranked hne hgv hs hgen]
    simp [assistantRenders]

/-- Witness for C2: a concrete successful turn over a store with four
ranked candidates. -/
theorem retrieval_k3_citation_rank_order_witness :
    ("What is the punishment for theft?" ≠ ""
      ∧ get_vectorstore wOraclesOk.loadLocal wState.vectorstore
          = Except.ok (some 0, some (some 0), true)
      ∧ wOraclesOk.search 0 "What is the punishment for theft?"
          = Except.ok [wDoc1, wDoc2, wDoc3, wDoc1]
      ∧ wOraclesOk.generate (getHFToken wEnv)
          (renderPrompt (stuffContext ([wDoc1, wDoc2, wDoc3, wDoc1].take 3))
            "What is the punishment for theft?")
          = Except.ok "Theft is punishable under Section 379 IPC.")
    ∧ (retrieveDocs wOraclesOk.search 3 0 "What is the punishment for theft?"
          = Except.ok ([wDoc1, wDoc2, wDoc3, wDoc1].take 3)
      ∧ ([wDoc1, wDoc2, wDoc3, wDoc1].take 3).length ≤ 3
      ∧ [wDoc1, wDoc2, wDoc3, wDoc1].take 3 <+: [wDoc1, wDoc2, wDoc3, wDoc1]
      ∧ assistantRenders
            (processTurn wOraclesOk wEnv wState "What is the punishment for theft?").2
          = [formattedResponse "Theft is punishable under Section 379 IPC."
              ([wDoc1, wDoc2, wDoc3, wDoc1].take 3)]
      ∧ formattedResponse "Theft is punishable under Section 379 IPC."
            ([wDoc1, wDoc2, wDoc3, wDoc1].take 3)
          = responseHeader "Theft is punishable under Section 379 IPC."
              ++ (citationEntries ([wDoc1, wDoc2, wDoc3, wDoc1].take 3)).foldr
                  (fun a b => a ++ b) ""
      ∧ (citationEntries ([wDoc1, wDoc2, wDoc3, wDoc1].take 3)).length
          = ([wDoc1, wDoc2, wDoc3, wDoc1].take 3).length
      ∧ ∀ (i : Nat)
          (h2 : i < (citationEntries ([wDoc1, wDoc2, wDoc3, wDoc1].take 3)).length)
          (h : i < ([wDoc1, wDoc2, wDoc3, wDoc1].take 3).length),
          (citationEntries ([wDoc1, wDoc2, wDoc3, wDoc1].take 3)).get ⟨i, h2⟩
            = formatEntry (1 + i) (([wDoc1, wDoc2, wDoc3, wDoc1].take 3).get ⟨i, h⟩)) :=
  ⟨⟨by decide, rfl, rfl, rfl⟩,
   retrieval_k3_citation_rank_order wOraclesOk wEnv wState
     "What is the punishment for theft?" "Theft is punishable under Section 379 IPC."
     0 (some (some 0)) true [wDoc1, wDoc2, wDoc3, wDoc1] (by decide) rfl rfl rfl⟩

/-- C6: with the `HF_TOKEN` environment variable absent, no failure occurs
before the first generation attempt: reading the variable yields `none`
without raising, the turn's trace begins with the user render, the
retrieval call and then the generation call (so nothing — in particular no
error display — precedes the generation attempt), and if the generation
call then fails the failure surfaces as the turn's single endpoint error
display, with the user message still recorded. -/
theorem absent_token_fails_at_generation {VS : Type} (o : Oracles VS)
    (env : String → Option String) (s : SessionState VS)
    (input : String) (vs : VS) (cache2 : Option (Option VS)) (b : Bool)
    (ranked : List Doc)
    (htok : env "HF_TOKEN" = none)
    (hne : input ≠ "")
    (hgv : get_vectorstore o.loadLocal s.vectorstore = Except.ok (some vs, cache2, b))
    (hs : o.search vs input = Except.ok ranked) :
    getHFToken env = none
    ∧ (processTurn o env s input).2.take 3
        = [Effect.renderUser input, Effect.retrievalCall input,
           Effect.generationCall (renderPrompt (stuffContext (ranked.take 3)) input)]
    ∧ ∀ e, o.generate none (renderPrompt (stuffContext (ranked.take 3)) input)
          = Except.error e →
        errorDisplays (processTurn o env s input).2 = ["Error: " ++ e]
        ∧ (processTurn o env s input).1.messages
            = s.messages ++ [{ role := Role.user, content := input }] := by
  have htok2 : getHFToken env = none := htok
  refine ⟨htok2, ?_, ?_⟩
  · cases hg : o.generate (getHFToken env)
        (renderPrompt (stuffContext (ranked.take 3)) input) with
    | error e =>
      rw [processTurn_genError o env s input e vs cache2 b ranked hne hgv hs hg]
      rfl
    | ok r =>
      rw [processTurn_answered o env s input r vs cache2 b ranked hne hgv hs hg]
      rfl
  · intro e hg
    have hg2 : o.generate (getHFToken env)
        (renderPrompt (stuffContext (ranked.take 3)) input) = Except.error e := by
      rw [htok2]
      exact hg
    rw [processTurn_genError o env s input e vs cache2 b ranked hne hgv hs hg2]
    exact ⟨by simp [errorDisplays], rfl⟩

/-- Witness for C6: a concrete turn with the token variable absent and a
failing generation endpoint. -/
theorem absent_token_fails_at_generation_witness :
    (wEnv "HF_TOKEN" = none
      ∧ "What is theft?" ≠ ""
      ∧ get_vectorstore wOraclesGenFail.loadLocal wState.vectorstore
          = Except.ok (some 0, some (some 0), true)
      ∧ wOraclesGenFail.search 0 "What is theft?" = Except.ok [wDoc1])
    ∧ (getHFToken wEnv = none
      ∧ (processTurn wOraclesGenFail wEnv wState "What is theft?").2.take 3
          = [Effect.renderUser "What is theft?", Effect.retrievalCall "What is theft?",
             Effect.generationCall
               (renderPrompt (stuffContext ([wDoc1].take 3)) "What is theft?")]
      ∧ ∀ e, wOraclesGenFail.generate none
            (renderPrompt (stuffContext ([wDoc1].take 3)) "What is theft?")
            = Except.error e →
          errorDisplays (processTurn wOraclesGenFail wEnv wState "What is theft?").2
              = ["Error: " ++ e]
          ∧ (processTurn wOraclesGenFail wEnv wState "What is theft?").1.messages
              = wState.messages
                  ++ [{ role := Role.user, content := "What is theft?" }]) :=
  ⟨⟨rfl, by decide, rfl, rfl⟩,
   absent_token_fails_at_generation wOraclesGenFail wEnv wState "What is theft?" 0
     (some (some 0)) true [wDoc1] rfl (by decide) rfl rfl⟩

theorem error_text_ne_store_message (e : String) :
    "Error: " ++ e ≠ "Failed to load the vector store." := by
  intro h
  have h2 : ("Error: " ++ e).data = "Failed to load the vector store.".data :=
    congrArg String.data h
  rw [String.data_append] at h2
  have h3 : "Error: ".data = 'E' :: "rror: ".data := by decide
  have h4 : "Failed to load the vector store.".data
      = 'F' :: "ailed to load the vector store.".data := by decide
  rw [h3, h4, List.cons_append] at h2
  injection h2 with h5 h6
  exact absurd h5 (by decide)

theorem get_vectorstore_cache_ok {VS : Type} (load : Except String (Option VS))
    (cache : Option (Option VS))
    (hload : ∀ v, load = Except.ok v → v ≠ none)
    (hcache : cache ≠ some none) :
    ∀ vOpt c2 b, get_vectorstore load cache = Except.ok (vOpt, c2, b) →
      vOpt ≠ none ∧ c2 ≠ some none := by
  intro vOpt c2 b h
  cases cache with
  | some v =>
    have hv : v ≠ none := fun hv => hcache (by rw [hv])
    simp only [get_vectorstore, Except.ok.injEq, Prod.mk.injEq] at h
    obtain ⟨rfl, rfl, rfl⟩ := h
    exact ⟨hv, fun hc => hv (Option.some.inj hc)⟩
  | none =>
    cases hl : load with
    | ok v =>
      rw [hl] at h
      simp only [get_vectorstore, Except.ok.injEq, Prod.mk.injEq] at h
      obtain ⟨rfl, rfl, rfl⟩ := h
      have hv := hload _ hl
      exact ⟨hv, fun hc => hv (Option.some.inj hc)⟩
    | error e2 =>
      rw [hl] at h
      simp [get_vectorstore] at h

/-- C10: given that `FAISS.load_local` returns an instance or raises (it
never returns `None`) and the session slot does not hold `None`, the
orchestrator's explicit `None`-check error branch is unreachable — its
error display `Failed to load the vector store.` never appears in the
turn's trace under any execution (a missing or corrupt index surfaces
through the exception path instead), and the session slot still does not
hold `None` after the turn. -/
theorem store_none_branch_unreachable {VS : Type} (o : Oracles VS)
    (env : String → Option String) (s : SessionState VS) (input : String)
    (hload : ∀ v, o.loadLocal = Except.ok v → v ≠ none)
    (hcache : s.vectorstore ≠ some none) :
    Effect.errorDisplay "Failed to load the vector store."
        ∉ (processTurn o env s input).2
    ∧ (processTurn o env s input).1.vectorstore ≠ some none := by
  by_cases hi : input = ""
  · subst hi
    refine ⟨by simp [processTurn], ?_⟩
    simpa [processTurn] using hcache
  · cases hgv : get_vectorstore o.loadLocal s.vectorstore with
    | error e2 =>
      have hrt : runTry o (getHFToken env) s.vectorstore input
          = (.raised e2 s.vectorstore, []) := by
        simp [runTry, hgv]
      have hpt : processTurn o env s input
          = (⟨s.messages ++ [{ role := Role.user, content := input }], s.vectorstore⟩,
             [Effect.renderUser input, Effect.errorDisplay ("Error: " ++ e2)]) := by
        simp [processTurn, if_neg hi, hrt]
      rw [hpt]
      refine ⟨?_, hcache⟩
      simp only [List.mem_cons, List.not_mem_nil, or_false]
      rintro (h | h)
      · exact Effect.noConfusion h
      · have h2 : "Failed to load the vector store." = "Error: " ++ e2 :=
          congrArg (fun eff => match eff with
            | Effect.errorDisplay t => t
            | _ => "") h
        exact error_text_ne_store_message e2 h2.symm
    | ok triple =>
      obtain ⟨vsOpt, cache2, b⟩ := triple
      have hvo := get_vectorstore_cache_ok o.loadLocal s.vectorstore hload hcache
        vsOpt cache2 b hgv
      cases vsOpt with
      | none => exact absurd rfl hvo.1
      | some vs =>
        cases hr : retrieveDocs o.search 3 vs input with
        | error e2 =>
          have hrt : runTry o (getHFToken env) s.vectorstore input
              = (.raised e2 cache2, [Effect.retrievalCall input]) := by
            simp [runTry, hgv, hr]
          have hpt : processTurn o env s input
              = (⟨s.messages ++ [{ role := Role.user, content := input }], cache2⟩,
                 [Effect.renderUser input, Effect.retrievalCall input,
                  Effect.errorDisplay ("Error: " ++ e2)]) := by
            simp [processTurn, if_neg hi, hrt]
          rw [hpt]
          refine ⟨?_, hvo.2⟩
          simp only [List.mem_cons, List.not_mem_nil, or_false]
          rintro (h | h | h)
          · exact Effect.noConfusion h
          · exact Effect.noConfusion h
          · have h2 : "Failed to load the vector store." = "Error: " ++ e2 :=
              congrArg (fun eff => match eff with
                | Effect.errorDisplay t => t
                | _ => "") h
            exact error_text_ne_store_message e2 h2.symm
        | ok docs =>
          cases hg : o.generate (getHFToken env)
              (renderPrompt (stuffContext docs) input) with
          | error e2 =>
            have hrt : runTry o (getHFToken env) s.vectorstore input
                = (.raised e2 cache2,
                   [Effect.retrievalCall input,
                    Effect.generationCall (renderPrompt (stuffContext docs) input)]) := by
              simp [runTry, hgv, hr, hg]
            have hpt : processTurn o env s input
                = (⟨s.messages ++ [{ role := Role.user, content := input }], cache2⟩,
                   [Effect.renderUser input, Effect.retrievalCall input,
                    Effect.generationCall (renderPrompt (stuffContext docs) input),
                    Effect.errorDisplay ("Error: " ++ e2)]) := by
              simp [processTurn, if_neg hi, hrt]
            rw [hpt]
            refine ⟨?_, hvo.2⟩
            simp only [List.mem_cons, List.not_mem_nil, or_false]
            rintro (h | h | h | h)
            · exact Effect.noConfusion h
            · exact Effect.noConfusion h
            · exact Effect.noConfusion h
            · have h2 : "Failed to load the vector store." = "Error: " ++ e2 :=
                congrArg (fun eff => match eff with
                  | Effect.errorDisplay t => t
                  | _ => "") h
              exact error_text_ne_store_message e2 h2.symm
          | ok r =>
            have hrt : runTry o (getHFToken env) s.vectorstore input
                = (.answered r docs cache2,
                   [Effect.retrievalCall input,
                    Effect.generationCall (renderPrompt (stuffContext docs) input)]) := by
              simp [runTry, hgv, hr, hg]
            have hpt : processTurn o env s input
                = (⟨s.messages ++ [{ role := Role.user, content := input }]
                      ++ [{ role := Role.assistant, content := formattedResponse r docs }],
                    cache2⟩,
                   [Effect.renderUser input, Effect.retrievalCall input,
                    Effect.generationCall (renderPrompt (stuffContext docs) input),
                    Effect.renderAssistant (formattedResponse r docs)]) := by
              simp [processTurn, if_neg hi, hrt]
            rw [hpt]
            refine ⟨?_, hvo.2⟩
            simp only [List.mem_cons, List.not_mem_nil, or_false]
            rintro (h | h | h | h) <;> exact Effect.noConfusion h

/-- Witness for C10: a concrete turn over a store whose load succeeds with
an instance and an empty session slot. -/
theorem store_none_branch_unreachable_witness :
    ((∀ v, wOraclesOk.loadLocal = Except.ok v → v ≠ none)
      ∧ wState.vectorstore ≠ some none)
    ∧ (Effect.errorDisplay "Failed to load the vector store."
          ∉ (processTurn wOraclesOk wEnv wState "What is theft?").2
      ∧ (processTurn wOraclesOk wEnv wState "What is theft?").1.vectorstore
          ≠ some none) :=
  ⟨⟨fun v hv => by
      have h2 : some (0 : Nat) = v := by
        have h3 := Except.ok.inj hv
        exact h3
      exact fun hn => by rw [← h2] at hn; exact Option.noConfusion hn,
    fun h => Option.noConfusion h⟩,
   store_none_branch_unreachable wOraclesOk wEnv wState "What is theft?"
     (fun v hv => by
        have h2 : some (0 : Nat) = v := Except.ok.inj hv
        exact fun hn => by rw [← h2] at hn; exact Option.noConfusion hn)
     (fun h => Option.noConfusion h)⟩

theorem metadata_in_entry (rank : Nat) (d : Doc) (src pg : String)
    (hs : d.source = some src) (hp : d.page = some pg) :
    src.data <:+: (formatEntry rank d).data
    ∧ pg.data <:+: (formatEntry rank d).data := by
  have he : formatEntry rank d
      = (((((("**" ++ toString rank) ++ ". Source:** `") ++ src) ++ "`, **Page:** ")
            ++ pg) ++ "\n\n")
          ++ pyStrip d.page_content ++ "\n\n" := by
    simp only [formatEntry, citationLine, hs, hp, Option.getD_some]
  constructor
  · rw [he]
    exact data_infix_append_left _ _ _ (data_infix_append_left _ _ _
      (data_infix_append_left _ _ _ (data_infix_append_left _ _ _
        (data_infix_append_left _ _ _
          (data_infix_append_right _ _ _ (data_infix_self src))))))
  · rw [he]
    exact data_infix_append_left _ _ _ (data_infix_append_left _ _ _
      (data_infix_append_left _ _ _
        (data_infix_append_right _ _ _ (data_infix_self pg))))

/-- C3: formatting an AnswerResult with exactly 3 source chunks and a
non-empty result string produces the header followed by exactly the three
citation entries in order (ranks 1, 2, 3); the output contains the result
text and the labeled `Source Documents` section heading; each entry occurs
in the output and contains its chunk's source and page metadata fields
verbatim; and each citation line is followed by that chunk's
whitespace-stripped text. -/
theorem format_three_sources (result : String) (d1 d2 d3 : Doc)
    (s1 p1 s2 p2 s3 p3 : String)
    (hres : result ≠ "")
    (hs1 : d1.source = some s1) (hp1 : d1.page = some p1)
    (hs2 : d2.source = some s2) (hp2 : d2.page = some p2)
    (hs3 : d3.source = some s3) (hp3 : d3.page = some p3) :
    formattedResponse result [d1, d2, d3]
        = responseHeader result
            ++ formatEntry 1 d1 ++ formatEntry 2 d2 ++ formatEntry 3 d3
    ∧ (citationEntries [d1, d2, d3]).length = 3
    ∧ citationEntries [d1, d2, d3]
        = [formatEntry 1 d1, formatEntry 2 d2, formatEntry 3 d3]
    ∧ result.data <:+: (formattedResponse result [d1, d2, d3]).data
    ∧ "### 📚 Source Documents:".data <:+: (formattedResponse result [d1, d2, d3]).data
    ∧ (formatEntry 1 d1).data <:+: (formattedResponse result [d1, d2, d3]).data
    ∧ (formatEntry 2 d2).data <:+: (formattedResponse result [d1, d2, d3]).data
    ∧ (formatEntry 3 d3).data <:+: (formattedResponse result [d1, d2, d3]).data
    ∧ s1.data <:+: (formatEntry 1 d1).data
    ∧ p1.data <:+: (formatEntry 1 d1).data
    ∧ s2.data <:+: (formatEntry 2 d2).data
    ∧ p2.data <:+: (formatEntry 2 d2).data
    ∧ s3.data <:+: (formatEntry 3 d3).data
    ∧ p3.data <:+: (formatEntry 3 d3).data
    ∧ formatEntry 1 d1 = citationLine 1 d1 ++ pyStrip d1.page_content ++ "\n\n"
    ∧ formatEntry 2 d2 = citationLine 2 d2 ++ pyStrip d2.page_content ++ "\n\n"
    ∧ formatEntry 3 d3 = citationLine 3 d3 ++ pyStrip d3.page_content ++ "\n\n" := by
  have heq : formattedResponse result [d1, d2, d3]
      = responseHeader result
          ++ formatEntry 1 d1 ++ formatEntry 2 d2 ++ formatEntry 3 d3 := rfl
  have hheader : responseHeader result
      = ("### LegalDoc_AI Response\n\n" ++ result)
          ++ "\n\n---\n\n### 📚 Source Documents:\n" := rfl
  have m1 := metadata_in_entry 1 d1 s1 p1 hs1 hp1
  have m2 := metadata_in_entry 2 d2 s2 p2 hs2 hp2
  have m3 := metadata_in_entry 3 d3 s3 p3 hs3 hp3
  refine ⟨heq, rfl, rfl, ?_, ?_, ?_, ?_, ?_,
    m1.1, m1.2, m2.1, m2.2, m3.1, m3.2, rfl, rfl, rfl⟩
  · rw [heq, hheader]
    exact data_infix_append_left _ _ _ (data_infix_append_left _ _ _
      (data_infix_append_left _ _ _ (data_infix_append_left _ _ _
        (data_infix_append_right _ _ _ (data_infix_self result)))))
  · rw [heq, hheader]
    have hlab : "### 📚 Source Documents:".data
        <:+: "\n\n---\n\n### 📚 Source Documents:\n".data := by decide
    exact data_infix_append_left _ _ _ (data_infix_append_left _ _ _
      (data_infix_append_left _ _ _ (data_infix_append_right _ _ _ hlab)))
  · rw [heq]
    exact data_infix_append_left _ _ _ (data_infix_append_left _ _ _
      (data_infix_append_right _ _ _ (data_infix_self _)))
  · rw [heq]
    exact data_infix_append_left _ _ _ (data_infix_append_right _ _ _ (data_infix_self _))
  · rw [heq]
    exact data_infix_append_right _ _ _ (data_infix_self _)

/-- Witness for C3 at a concrete answer and three concrete chunks. -/
theorem format_three_sources_witness :
    ("Punishable under Section 379 IPC." ≠ ""
      ∧ wDoc1.source = some "ipc.pdf" ∧ wDoc1.page = some "45"
      ∧ wDoc2.source = some "ipc.pdf" ∧ wDoc2.page = some "46")
    ∧ (formattedResponse "Punishable under Section 379 IPC." [wDoc1, wDoc2, wDoc1]
          = responseHeader "Punishable under Section 379 IPC."
              ++ formatEntry 1 wDoc1 ++ formatEntry 2 wDoc2 ++ formatEntry 3 wDoc1
      ∧ (citationEntries [wDoc1, wDoc2, wDoc1]).length = 3
      ∧ citationEntries [wDoc1, wDoc2, wDoc1]
          = [formatEntry 1 wDoc1, formatEntry 2 wDoc2, formatEntry 3 wDoc1]
      ∧ "Punishable under Section 379 IPC.".data
          <:+: (formattedResponse "Punishable under Section 379 IPC."
                  [wDoc1, wDoc2, wDoc1]).data
      ∧ "### 📚 Source Documents:".data
          <:+: (formattedResponse "Punishable under Section 379 IPC."
                  [wDoc1, wDoc2, wDoc1]).data
      ∧ (formatEntry 1 wDoc1).data
          <:+: (formattedResponse "Punishable under Section 379 IPC."
                  [wDoc1, wDoc2, wDoc1]).data
      ∧ (formatEntry 2 wDoc2).data
          <:+: (formattedResponse "Punishable under Section 379 IPC."
                  [wDoc1, wDoc2, wDoc1]).data
      ∧ (formatEntry 3 wDoc1).data
          <:+: (formattedResponse "Punishable under Section 379 IPC."
                  [wDoc1, wDoc2, wDoc1]).data
      ∧ "ipc.pdf".data <:+: (formatEntry 1 wDoc1).data
      ∧ "45".data <:+: (formatEntry 1 wDoc1).data
      ∧ "ipc.pdf".data <:+: (formatEntry 2 wDoc2).data
      ∧ "46".data <:+: (formatEntry 2 wDoc2).data
      ∧ "ipc.pdf".data <:+: (formatEntry 3 wDoc1).data
      ∧ "45".data <:+: (formatEntry 3 wDoc1).data
      ∧ formatEntry 1 wDoc1
          = citationLine 1 wDoc1 ++ pyStrip wDoc1.page_content ++ "\n\n"
      ∧ formatEntry 2 wDoc2
          = citationLine 2 wDoc2 ++ pyStrip wDoc2.page_content ++ "\n\n"
      ∧ formatEntry 3 wDoc1
          = citationLine 3 wDoc1 ++ pyStrip wDoc1.page_content ++ "\n\n") :=
  ⟨⟨by decide, rfl, rfl, rfl, rfl⟩,
   format_three_sources "Punishable under Section 379 IPC." wDoc1 wDoc2 wDoc1
     "ipc.pdf" "45" "ipc.pdf" "46" "ipc.pdf" "45"
     (by decide) rfl rfl rfl rfl rfl rfl⟩
